import Mathlib

/-!
Shallow embedding of `src/app/page.tsx` (the single-page audio
recorder/uploader of the `summariser` repository) and proofs about it.

The page is a client-side state machine over the React state variables
`isRecording`, `audioBlob`, `apiKey`, `email`, `transcription`,
`isProcessing`, `message`, `hasAudio`, together with the refs
`mediaRecorderRef` and `audioChunksRef` and the media streams / audio
context acquired in `startRecording`.  We model the state as a record,
each handler (`startRecording`, `stopRecording`, `processAudio`,
`ondataavailable`) as a pure state transformer, and the outcome of the
asynchronous host/network interactions as explicit environment records.
Each operation additionally returns the trace of external requests it
issued (media-stream requests, network calls), so that temporal claims
("the relay is never attempted") become statements about the trace.
-/

namespace Summariser

/-! ## The email regex, `validateEmail` (page.tsx line 18-20)

The source is `/^[^\s@]+@[^"]+\.[^\s@]+$/.test(email)`.  A regex of the
shape `^A+@B+\.C+$` (for character classes `A`, `B`, `C`) accepts a
string iff it decomposes as `a ++ "@" ++ b ++ "." ++ c` with `a` a
nonempty word over `A`, `b` a nonempty word over `B` and `c` a nonempty
word over `C`; we embed the regex as an executable matcher that searches
all such decompositions. -/

/-- The class `[^\s@]`: any character that is neither whitespace nor `@`. -/
def emailAtomChar (c : Char) : Bool := !c.isWhitespace && c != '@'

/-- The class `[^"]`: any character that is not a double quote. -/
def emailDomChar (c : Char) : Bool := c != '"'

/-- All ways to split a list into a prefix and a suffix. -/
def splits {α : Type} : List α → List (List α × List α)
  | [] => [([], [])]
  | x :: xs => ([], x :: xs) :: (splits xs).map fun p => (x :: p.1, p.2)

/-- Matcher for the suffix `\.[^\s@]+$`. -/
def matchDotEnd : List Char → Bool
  | [] => false
  | ch :: c => ch == '.' && (!c.isEmpty && c.all emailAtomChar)

/-- Matcher for the suffix `[^"]+\.[^\s@]+$`. -/
def matchDotTail (l : List Char) : Bool :=
  (splits l).any fun p => !p.1.isEmpty && p.1.all emailDomChar && matchDotEnd p.2

/-- Matcher for the suffix `@[^"]+\.[^\s@]+$`. -/
def matchAtTail : List Char → Bool
  | [] => false
  | ch :: rest => ch == '@' && matchDotTail rest

/-- The function `validateEmail` (page.tsx line 18): tests the whole
string against `^[^\s@]+@[^"]+\.[^\s@]+$`. -/
def validateEmail (s : String) : Bool :=
  (splits s.toList).any fun p => !p.1.isEmpty && p.1.all emailAtomChar && matchAtTail p.2

theorem mem_splits {α : Type} : ∀ (l a b : List α), (a, b) ∈ splits l ↔ l = a ++ b := by
  intro l
  induction l with
  | nil =>
    intro a b
    constructor
    · intro h
      simp only [splits, List.mem_singleton, Prod.mk.injEq] at h
      simp [h.1, h.2]
    · intro h
      have : a = [] ∧ b = [] := by
        constructor
        · cases a with
          | nil => rfl
          | cons x xs => simp at h
        · cases a with
          | nil => simpa using h.symm
          | cons x xs => simp at h
      simp [splits, this.1, this.2]
  | cons x xs ih =>
    intro a b
    simp only [splits, List.mem_cons, List.mem_map]
    constructor
    · rintro (h | ⟨p, hp, hq⟩)
      · obtain ⟨h1, h2⟩ := Prod.mk.injEq .. ▸ h
        simp [h1, h2]
      · obtain ⟨h1, h2⟩ := Prod.mk.injEq .. ▸ hq
        have := (ih p.1 p.2).mp (by simpa using hp)
        subst h1 h2
        simp [this]
    · intro h
      cases a with
      | nil =>
        left
        simp at h
        simp [h]
      | cons a0 as =>
        right
        simp only [List.cons_append, List.cons.injEq] at h
        exact ⟨(as, b), (ih as b).mpr h.2, by simp [h.1]⟩

/-- Characterisation of the matcher: `validateEmail` accepts exactly the
strings of the form `a ++ "@" ++ b ++ "." ++ c` with `a`, `c` nonempty
words of non-whitespace-non-`@` characters and `b` a nonempty word of
non-quote characters. -/
theorem validateEmail_iff (s : String) :
    validateEmail s = true ↔
      ∃ a b c : List Char,
        s.toList = a ++ '@' :: (b ++ '.' :: c)
        ∧ a ≠ [] ∧ (∀ x ∈ a, emailAtomChar x = true)
        ∧ b ≠ [] ∧ (∀ x ∈ b, emailDomChar x = true)
        ∧ c ≠ [] ∧ (∀ x ∈ c, emailAtomChar x = true) := by
  constructor
  · intro h
    unfold validateEmail at h
    rw [List.any_eq_true] at h
    obtain ⟨⟨a, r⟩, hmem, hp⟩ := h
    simp only [Bool.and_eq_true, Bool.not_eq_true', List.all_eq_true] at hp
    obtain ⟨⟨ha1, ha2⟩, hat⟩ := hp
    cases r with
    | nil => simp [matchAtTail] at hat
    | cons ch rest =>
      simp only [matchAtTail, Bool.and_eq_true, beq_iff_eq] at hat
      obtain ⟨rfl, hdt⟩ := hat
      unfold matchDotTail at hdt
      rw [List.any_eq_true] at hdt
      obtain ⟨⟨b, r2⟩, hmem2, hp2⟩ := hdt
      simp only [Bool.and_eq_true, Bool.not_eq_true', List.all_eq_true] at hp2
      obtain ⟨⟨hb1, hb2⟩, hde⟩ := hp2
      cases r2 with
      | nil => simp [matchDotEnd] at hde
      | cons ch2 c =>
        simp only [matchDotEnd, Bool.and_eq_true, Bool.not_eq_true', beq_iff_eq,
          List.all_eq_true] at hde
        obtain ⟨rfl, hc1, hc2⟩ := hde
        refine ⟨a, b, c, ?_, ?_, ha2, ?_, hb2, ?_, hc2⟩
        · rw [(mem_splits _ _ _).mp hmem, (mem_splits _ _ _).mp hmem2]
        · simpa [List.isEmpty_iff] using ha1
        · simpa [List.isEmpty_iff] using hb1
        · simpa [List.isEmpty_iff] using hc1
  · rintro ⟨a, b, c, hs, ha1, ha2, hb1, hb2, hc1, hc2⟩
    unfold validateEmail
    rw [List.any_eq_true]
    refine ⟨(a, '@' :: (b ++ '.' :: c)), (mem_splits _ _ _).mpr hs, ?_⟩
    simp only [Bool.and_eq_true, Bool.not_eq_true', List.all_eq_true]
    refine ⟨⟨by simpa [List.isEmpty_iff] using ha1, ha2⟩, ?_⟩
    simp only [matchAtTail, Bool.and_eq_true, beq_self_eq_true, true_and]
    unfold matchDotTail
    rw [List.any_eq_true]
    refine ⟨(b, '.' :: c), (mem_splits _ _ _).mpr rfl, ?_⟩
    simp only [matchDotEnd, Bool.and_eq_true, Bool.not_eq_true', beq_self_eq_true,
      List.all_eq_true, true_and]
    exact ⟨⟨by simpa [List.isEmpty_iff] using hb1, hb2⟩,
      by simpa [List.isEmpty_iff] using hc1, hc2⟩

theorem validateEmail_false_of_no_at (s : String) (h : '@' ∉ s.toList) :
    validateEmail s = false := by
  cases hv : validateEmail s with
  | false => rfl
  | true =>
    exfalso
    obtain ⟨a, b, c, hs, -, -, -, -, -, -⟩ := (validateEmail_iff s).mp hv
    exact h (by rw [hs]; simp)

theorem dropWhile_append_of_all {α : Type} (p : α → Bool) (a l : List α)
    (h : ∀ x ∈ a, p x = true) :
    List.dropWhile p (a ++ l) = List.dropWhile p l := by
  induction a with
  | nil => rfl
  | cons x xs ih =>
    have hx : p x = true := h x (List.mem_cons_self _ _)
    simp only [List.cons_append, List.dropWhile_cons, hx, if_true]
    exact ih fun y hy => h y (List.mem_cons_of_mem _ hy)

theorem validateEmail_false_of_no_dot_after_at (s : String)
    (h : '.' ∉ s.toList.dropWhile fun ch => ch != '@') :
    validateEmail s = false := by
  cases hv : validateEmail s with
  | false => rfl
  | true =>
    exfalso
    obtain ⟨a, b, c, hs, -, ha2, -, -, -, -⟩ := (validateEmail_iff s).mp hv
    apply h
    rw [hs, dropWhile_append_of_all _ a _ ?_]
    · simp [List.dropWhile_cons]
    · intro x hx
      have := ha2 x hx
      simp only [emailAtomChar, Bool.and_eq_true] at this
      exact this.2

/-- Claim C1: `validateEmail` is a pure predicate that accepts exactly the
strings matching `^[^\s@]+@[^"]+\.[^\s@]+$`, i.e. one or more
non-whitespace-non-`@` characters, then `@`, then one or more non-quote
characters, then `.`, then one or more non-whitespace-non-`@` characters;
every string with no `@`, and every string with no `.` after its first
`@`, is rejected. -/
theorem validateEmail_matches_pattern :
    (∀ s : String, validateEmail s = true ↔
      ∃ a b c : List Char,
        s.toList = a ++ '@' :: (b ++ '.' :: c)
        ∧ a ≠ [] ∧ (∀ x ∈ a, emailAtomChar x = true)
        ∧ b ≠ [] ∧ (∀ x ∈ b, emailDomChar x = true)
        ∧ c ≠ [] ∧ (∀ x ∈ c, emailAtomChar x = true))
    ∧ (∀ s : String, '@' ∉ s.toList → validateEmail s = false)
    ∧ (∀ s : String, ('.' ∉ s.toList.dropWhile fun ch => ch != '@') →
        validateEmail s = false) :=
  ⟨validateEmail_iff, validateEmail_false_of_no_at,
    validateEmail_false_of_no_dot_after_at⟩

/-- Witness for C1 at concrete inputs: `"a@b.co"` is accepted, `"user"`
(no `@`) and `"a.b@cd"` (no `.` after the `@`) are rejected. -/
theorem validateEmail_matches_pattern_witness :
    validateEmail "a@b.co" = true
    ∧ validateEmail "user" = false
    ∧ validateEmail "a.b@cd" = false := by
  refine ⟨?_, ?_, ?_⟩
  · exact (validateEmail_matches_pattern.1 "a@b.co").mpr
      ⟨['a'], ['b'], ['c', 'o'], by decide, by decide, by decide, by decide,
        by decide, by decide, by decide⟩
  · exact validateEmail_matches_pattern.2.1 "user" (by decide)
  · exact validateEmail_matches_pattern.2.2 "a.b@cd" (by decide)

/-! ## Session state and operations -/

/-- Kinds of media input stream the page requests from the host
(`getUserMedia` for the microphone, `getDisplayMedia` for tab audio). -/
inductive StreamKind
  | mic
  | tab
deriving DecidableEq

/-- The two network calls of the processing pipeline, in the order they
may be issued. -/
inductive NetCall
  | whisper
  | lamatic
deriving DecidableEq

/-- A binary blob: a byte sequence plus the MIME type it is tagged with. -/
structure Blob where
  data : List Nat
  mime : String
deriving DecidableEq

/-- Byte length of a blob. -/
def Blob.size (b : Blob) : Nat := b.data.length

/-- The session state of the page: the React `useState` variables of
`AudioRecorderPage` (page.tsx lines 6-13), the refs (lines 15-16,
`mediaRecorderSet` standing for `mediaRecorderRef.current !== null` and
`audioChunks` for `audioChunksRef.current`), and the externally held
resources: `openStreams` lists the acquired and not-yet-released media
streams, `audioContextOpen` whether the mixing `AudioContext` is open. -/
structure AppState where
  isRecording : Bool
  audioBlob : Option Blob
  apiKey : String
  email : String
  transcription : String
  isProcessing : Bool
  message : String
  hasAudio : Bool
  mediaRecorderSet : Bool
  audioChunks : List (List Nat)
  openStreams : List StreamKind
  audioContextOpen : Bool
deriving DecidableEq

/-- The initial render state (page.tsx lines 6-16): everything false,
empty or null. -/
def initialState : AppState :=
  { isRecording := false
    audioBlob := none
    apiKey := ""
    email := ""
    transcription := ""
    isProcessing := false
    message := ""
    hasAudio := false
    mediaRecorderSet := false
    audioChunks := []
    openStreams := []
    audioContextOpen := false }

/-- Outcome of the host-environment interactions attempted by
`startRecording`: whether the microphone request resolves, whether the
tab-audio request resolves, and whether the mixing graph
(`AudioContext`, sources, destination, `MediaRecorder`) can be
constructed. -/
structure StartEnv where
  micOk : Bool
  tabOk : Bool
  graphOk : Bool
deriving DecidableEq

/-- The handler `startRecording` (page.tsx lines 22-82), as a state transformer that
also returns the list of media-stream requests issued to the host.
The body is one `try` block: `getUserMedia` (mic), then
`getDisplayMedia` (tab), then the mixing graph and `MediaRecorder`
construction, then `audioChunksRef.current = []`, handler installation,
`mediaRecorderRef.current = mediaRecorder`, `start()`,
`setIsRecording(true)` and the started message.  The `catch` block only
logs and sets an error message: it releases nothing, so streams acquired
before the failing step stay in `openStreams`. -/
def startRecording (env : StartEnv) (s : AppState) : AppState × List StreamKind :=
  if env.micOk = false then
    ({ s with message := "Error: Could not start recording. Please check permissions." },
      [StreamKind.mic])
  else if env.tabOk = false then
    ({ s with openStreams := s.openStreams ++ [StreamKind.mic],
              message := "Error: Could not start recording. Please check permissions." },
      [StreamKind.mic, StreamKind.tab])
  else if env.graphOk = false then
    ({ s with openStreams := s.openStreams ++ [StreamKind.mic, StreamKind.tab],
              message := "Error: Could not start recording. Please check permissions." },
      [StreamKind.mic, StreamKind.tab])
  else
    ({ s with openStreams := s.openStreams ++ [StreamKind.mic, StreamKind.tab],
              audioContextOpen := true,
              audioChunks := [],
              mediaRecorderSet := true,
              isRecording := true,
              message := "Recording started... Click DONE when finished." },
      [StreamKind.mic, StreamKind.tab])

/-- The `ondataavailable` handler (page.tsx lines 56-60): a chunk is
buffered only when its size is positive. -/
def dataAvailable (d : List Nat) (s : AppState) : AppState :=
  if d.length > 0 then { s with audioChunks := s.audioChunks ++ [d] } else s

/-- The handler `stopRecording` (page.tsx lines 84-90) together with the `onstop`
handler it triggers (lines 62-71): guarded by
`mediaRecorderRef.current && isRecording`; on the active branch the
buffered chunks are concatenated into one blob tagged `audio/webm`,
`hasAudio` becomes true, both streams and the audio context are
released, recording ends and the stopped message is set.  Otherwise
nothing happens. -/
def stopRecording (s : AppState) : AppState :=
  if s.mediaRecorderSet && s.isRecording then
    { s with
      audioBlob := some ⟨s.audioChunks.flatten, "audio/webm"⟩,
      hasAudio := true,
      openStreams := s.openStreams.filter fun k =>
        !(k == StreamKind.mic || k == StreamKind.tab),
      audioContextOpen := false,
      isRecording := false,
      message := "Recording stopped. Click \"Process Audio\" to transcribe." }
  else s

/-- An HTTP response as the pipeline observes it: its success flag
(`response.ok`) and, for the transcription call, the `text` field of its
JSON body. -/
structure HttpResp where
  ok : Bool
  text : String
deriving DecidableEq

/-- Outcome of the network interactions attempted by `processAudio`: the
transcription response, whether its body parses as JSON
(`whisperJsonOk`, with the raised message `jsonErrMsg` otherwise), and
the relay response. -/
structure ProcEnv where
  whisper : HttpResp
  whisperJsonOk : Bool
  jsonErrMsg : String
  lamatic : HttpResp
deriving DecidableEq

/-- The handler `processAudio` (page.tsx lines 92-155), as a state
transformer that also returns the trace of network calls issued, in
order.  The guard (line 93) mirrors
`!audioBlob || !apiKey || !validateEmail(email)`.  Then
`setIsProcessing(true)` and the transcribing message; the transcription
POST; on `!ok` an exception aborts to `catch`, which sets
`Error: <message>`; otherwise the JSON body is parsed, the transcript
stored, the relay POST issued; on `!ok` again an exception; otherwise
the success message.  The `finally` block clears `isProcessing` on every
path that entered the `try`.  Each branch below shows the intermediate
state (inner record update) followed by the `catch`/`finally` effects
(outer record update). -/
def processAudio (env : ProcEnv) (s : AppState) : AppState × List NetCall :=
  if s.audioBlob = none ∨ s.apiKey = "" ∨ validateEmail s.email = false then
    ({ s with message := "Please ensure you have recorded audio, entered a valid API key, and email." },
      [])
  else if env.whisper.ok = false then
    ({ { s with isProcessing := true, message := "Transcribing audio..." } with
        message := "Error: Transcription failed", isProcessing := false },
      [NetCall.whisper])
  else if env.whisperJsonOk = false then
    ({ { s with isProcessing := true, message := "Transcribing audio..." } with
        message := "Error: " ++ env.jsonErrMsg, isProcessing := false },
      [NetCall.whisper])
  else if env.lamatic.ok = false then
    ({ { s with isProcessing := true, transcription := env.whisper.text,
                message := "Transcription complete. Sending to Lamatic AI..." } with
        message := "Error: Failed to send to Lamatic AI", isProcessing := false },
      [NetCall.whisper, NetCall.lamatic])
  else
    ({ { s with isProcessing := true, transcription := env.whisper.text,
                message := "Transcription complete. Sending to Lamatic AI..." } with
        message := "Success! Audio processed and sent to Lamatic AI. Check your email for results.",
        isProcessing := false },
      [NetCall.whisper, NetCall.lamatic])

/-- The precondition under which `processAudio` runs its pipeline
(page.tsx line 93, negated): an artifact exists, the API key is
non-empty and the email validates. -/
abbrev procPre (s : AppState) : Prop :=
  s.audioBlob ≠ none ∧ s.apiKey ≠ "" ∧ validateEmail s.email = true

/-- Whether the start button is rendered (page.tsx line 216:
`!isRecording && !hasAudio`). -/
def startButtonVisible (s : AppState) : Bool :=
  !s.isRecording && !s.hasAudio

/-- Whether the start button is rendered and enabled (page.tsx line 219:
`disabled={!apiKey || !validateEmail(email)}`). -/
def startButtonEnabled (s : AppState) : Bool :=
  startButtonVisible s && !(s.apiKey == "") && validateEmail s.email

/-- A user click on the start control: `startRecording` runs only when
the button is rendered and not disabled; otherwise the click does
nothing and no stream request is issued. -/
def clickStart (env : StartEnv) (s : AppState) : AppState × List StreamKind :=
  if startButtonEnabled s then startRecording env s else (s, [])

/-! ## Helper lemmas about the operations -/

theorem processAudio_guard_false {s : AppState} (h : procPre s) :
    ¬(s.audioBlob = none ∨ s.apiKey = "" ∨ validateEmail s.email = false) := by
  obtain ⟨h1, h2, h3⟩ := h
  push_neg
  exact ⟨h1, h2, by simp [h3]⟩

theorem startRecording_hasAudio (env : StartEnv) (s : AppState) :
    (startRecording env s).1.hasAudio = s.hasAudio := by
  unfold startRecording
  split
  · rfl
  · split
    · rfl
    · split
      · rfl
      · rfl

theorem processAudio_hasAudio (env : ProcEnv) (s : AppState) :
    (processAudio env s).1.hasAudio = s.hasAudio := by
  unfold processAudio
  split
  · rfl
  · split
    · rfl
    · split
      · rfl
      · split
        · rfl
        · rfl

/-! ## Concrete states and environments used by witnesses and
counterexamples -/

/-- A start environment in which the microphone request succeeds but the
tab-audio request is denied. -/
def envTabDenied : StartEnv := ⟨true, false, true⟩

/-- A start environment in which every host interaction succeeds. -/
def envAllOk : StartEnv := ⟨true, true, true⟩

/-- A processing environment in which both calls succeed and the
transcription body parses. -/
def okEnv : ProcEnv := ⟨⟨true, "hello world"⟩, true, "", ⟨true, ""⟩⟩

/-- A processing environment in which the transcription endpoint returns
a non-success status (e.g. HTTP 500). -/
def failEnv : ProcEnv := ⟨⟨false, ""⟩, true, "", ⟨true, ""⟩⟩

/-- A state holding a recorded artifact and valid credentials. -/
def recordedState : AppState :=
  { initialState with
      apiKey := "sk-test"
      email := "a@b.co"
      audioBlob := some ⟨[1, 2, 3], "audio/webm"⟩
      hasAudio := true
      mediaRecorderSet := true }

/-- A state in the middle of an active recording with two buffered
chunks. -/
def chunkState : AppState :=
  { initialState with
      isRecording := true
      mediaRecorderSet := true
      audioChunks := [[1, 2], [3]]
      openStreams := [StreamKind.mic, StreamKind.tab]
      audioContextOpen := true }

/-- A state after a stopped capture (the flag `hasAudio` is set). -/
def stoppedState : AppState := { initialState with hasAudio := true }

/-! ## Claims C2-C10 -/

/-- Claim C2: when the pipeline runs (precondition passed) and the
transcription POST returns a non-success status, the run aborts with the
transcription-failure message and the trace contains only the
transcription call (the relay is invoked 0 times); moreover in every run
the relay call appears in the trace only after a successful transcription
call. -/
theorem processAudio_no_relay_after_transcription_failure :
    (∀ (env : ProcEnv) (s : AppState), procPre s → env.whisper.ok = false →
        (processAudio env s).2 = [NetCall.whisper]
      ∧ (processAudio env s).2.count NetCall.lamatic = 0
      ∧ (processAudio env s).1.message = "Error: Transcription failed")
    ∧ (∀ (env : ProcEnv) (s : AppState), NetCall.lamatic ∈ (processAudio env s).2 →
        env.whisper.ok = true
      ∧ (processAudio env s).2 = [NetCall.whisper, NetCall.lamatic]) := by
  constructor
  · intro env s hpre hok
    unfold processAudio
    rw [if_neg (processAudio_guard_false hpre), if_pos hok]
    refine ⟨rfl, ?_, rfl⟩
    rfl
  · intro env s h
    unfold processAudio at h ⊢
    by_cases hg : s.audioBlob = none ∨ s.apiKey = "" ∨ validateEmail s.email = false
    · rw [if_pos hg] at h
      simp at h
    · rw [if_neg hg] at h ⊢
      by_cases hok : env.whisper.ok = false
      · rw [if_pos hok] at h
        rw [List.mem_singleton] at h
        exact absurd h (by decide)
      · have hok2 : env.whisper.ok = true := by
          cases hv : env.whisper.ok
          · exact absurd hv hok
          · rfl
        rw [if_neg hok] at h ⊢
        by_cases hjson : env.whisperJsonOk = false
        · rw [if_pos hjson] at h
          rw [List.mem_singleton] at h
          exact absurd h (by decide)
        · rw [if_neg hjson] at h ⊢
          by_cases hlam : env.lamatic.ok = false
          · rw [if_pos hlam]
            exact ⟨hok2, rfl⟩
          · rw [if_neg hlam]
            exact ⟨hok2, rfl⟩

/-- Witness for C2: a concrete failing transcription run issues only the
transcription call with the failure message, and a concrete successful
run that does reach the relay has a successful transcription first. -/
theorem processAudio_no_relay_after_transcription_failure_witness :
    ((processAudio failEnv recordedState).2 = [NetCall.whisper]
      ∧ (processAudio failEnv recordedState).2.count NetCall.lamatic = 0
      ∧ (processAudio failEnv recordedState).1.message = "Error: Transcription failed")
    ∧ okEnv.whisper.ok = true
    ∧ (processAudio okEnv recordedState).2 = [NetCall.whisper, NetCall.lamatic] := by
  refine ⟨processAudio_no_relay_after_transcription_failure.1 failEnv recordedState
    (by decide) rfl, ?_, ?_⟩
  · exact (processAudio_no_relay_after_transcription_failure.2 okEnv recordedState
      (by decide)).1
  · exact (processAudio_no_relay_after_transcription_failure.2 okEnv recordedState
      (by decide)).2

/-- Claim C3: whenever `processAudio` passes its precondition check, the
`finally` block guarantees `isProcessing = false` in the settled state on
every exit path; in the scenario where the transcription endpoint fails
(e.g. HTTP 500), the settled message is the failure message (which starts
with `Error`), the transcript is unchanged (so it remains unset), and the
processing flag is false. -/
theorem processAudio_settles_with_flag_cleared :
    (∀ (env : ProcEnv) (s : AppState), procPre s →
        (processAudio env s).1.isProcessing = false)
    ∧ (∀ (env : ProcEnv) (s : AppState), procPre s → env.whisper.ok = false →
        (processAudio env s).1.message = "Error: Transcription failed"
      ∧ "Error".toList.isPrefixOf (processAudio env s).1.message.toList = true
      ∧ (processAudio env s).1.transcription = s.transcription
      ∧ (processAudio env s).1.isProcessing = false) := by
  constructor
  · intro env s hpre
    unfold processAudio
    rw [if_neg (processAudio_guard_false hpre)]
    split
    · rfl
    · split
      · rfl
      · split
        · rfl
        · rfl
  · intro env s hpre hok
    unfold processAudio
    rw [if_neg (processAudio_guard_false hpre), if_pos hok]
    exact ⟨rfl, rfl, rfl, rfl⟩

/-- Witness for C3: the HTTP-500 scenario at a concrete recorded state
with an unset transcript. -/
theorem processAudio_settles_with_flag_cleared_witness :
    (processAudio failEnv recordedState).1.isProcessing = false
    ∧ (processAudio failEnv recordedState).1.message = "Error: Transcription failed"
    ∧ "Error".toList.isPrefixOf (processAudio failEnv recordedState).1.message.toList = true
    ∧ (processAudio failEnv recordedState).1.transcription = recordedState.transcription := by
  refine ⟨processAudio_settles_with_flag_cleared.1 failEnv recordedState (by decide), ?_⟩
  have h := processAudio_settles_with_flag_cleared.2 failEnv recordedState (by decide) rfl
  exact ⟨h.1, h.2.1, h.2.2.1⟩

/-- Claim C4: a click on the start control while the API key is empty or
the email does not validate is rejected: the state is unchanged and no
media-stream request (neither microphone nor display/tab audio) is
issued to the host.  In the page the rejection is enforced by the
`disabled` attribute of the start button (page.tsx line 219). -/
theorem clickStart_rejects_invalid_credentials :
    ∀ (env : StartEnv) (s : AppState),
      s.apiKey = "" ∨ validateEmail s.email = false →
      clickStart env s = (s, []) := by
  intro env s h
  have hb : startButtonEnabled s = false := by
    unfold startButtonEnabled
    rcases h with h | h
    · simp [h]
    · simp [h]
  simp [clickStart, hb]

/-- Witness for C4: in the initial state (empty key, empty email) a start
click does nothing even when the host would grant both streams. -/
theorem clickStart_rejects_invalid_credentials_witness :
    clickStart envAllOk initialState = (initialState, []) :=
  clickStart_rejects_invalid_credentials envAllOk initialState (Or.inl rfl)

/-- Counterexample to C5 as stated: starting from the pristine state (no
open stream), with the microphone granted and the tab-audio request
denied, `startRecording` fails (recording never starts, the error message
is set) but the already-acquired microphone stream is NOT released: it
remains open after the operation. -/
theorem startRecording_tab_denial_leaks_mic :
    (startRecording envTabDenied initialState).1.isRecording = false
    ∧ (startRecording envTabDenied initialState).1.message =
        "Error: Could not start recording. Please check permissions."
    ∧ initialState.openStreams = []
    ∧ (startRecording envTabDenied initialState).1.openStreams = [StreamKind.mic] := by
  exact ⟨rfl, rfl, rfl, rfl⟩

/-- Claim C5 as amended: if either stream request is denied or the mixing
graph cannot be constructed, `startRecording` fails without entering the
Recording state (`isRecording` and `mediaRecorderSet` are unchanged) and
sets the user-facing error message, but it does not release partial
resources: every stream acquired before the failing step is left open. -/
theorem startRecording_failure_keeps_idle_but_leaks :
    ∀ (env : StartEnv) (s : AppState),
      env.micOk = false ∨ env.tabOk = false ∨ env.graphOk = false →
      (startRecording env s).1.isRecording = s.isRecording
      ∧ (startRecording env s).1.message =
          "Error: Could not start recording. Please check permissions."
      ∧ (startRecording env s).1.mediaRecorderSet = s.mediaRecorderSet
      ∧ (startRecording env s).1.openStreams =
          s.openStreams ++
            (if env.micOk = false then []
             else if env.tabOk = false then [StreamKind.mic]
             else [StreamKind.mic, StreamKind.tab]) := by
  intro env s h
  by_cases hm : env.micOk = false
  · simp [startRecording, hm]
  · by_cases ht : env.tabOk = false
    · simp [startRecording, hm, ht]
    · have hg : env.graphOk = false := by tauto
      simp [startRecording, hm, ht, hg]

/-- Witness for C5 (amended) at the tab-denial scenario on the pristine
state. -/
theorem startRecording_failure_keeps_idle_but_leaks_witness :
    (startRecording envTabDenied initialState).1.isRecording = initialState.isRecording
    ∧ (startRecording envTabDenied initialState).1.message =
        "Error: Could not start recording. Please check permissions."
    ∧ (startRecording envTabDenied initialState).1.mediaRecorderSet =
        initialState.mediaRecorderSet
    ∧ (startRecording envTabDenied initialState).1.openStreams =
        initialState.openStreams ++
          (if envTabDenied.micOk = false then []
           else if envTabDenied.tabOk = false then [StreamKind.mic]
           else [StreamKind.mic, StreamKind.tab]) :=
  startRecording_failure_keeps_idle_but_leaks envTabDenied initialState (by decide)

/-- Counterexample to C6 as stated: a processing run that settles
successfully (flag cleared, success message) still leaves the captured
artifact in the session: `audioBlob` is not discarded. -/
theorem processAudio_retains_artifact_after_settling :
    (processAudio okEnv recordedState).1.isProcessing = false
    ∧ (processAudio okEnv recordedState).1.message =
        "Success! Audio processed and sent to Lamatic AI. Check your email for results."
    ∧ (processAudio okEnv recordedState).1.audioBlob = some ⟨[1, 2, 3], "audio/webm"⟩ := by
  exact ⟨rfl, rfl, rfl⟩

/-- Claim C6 as amended: `processAudio` never discards the captured
artifact: on every path, success or failure, the settled state holds
exactly the artifact it started with. -/
theorem processAudio_preserves_artifact :
    ∀ (env : ProcEnv) (s : AppState),
      (processAudio env s).1.audioBlob = s.audioBlob := by
  intro env s
  unfold processAudio
  split
  · rfl
  · split
    · rfl
    · split
      · rfl
      · split
        · rfl
        · rfl

/-- Counterexample to C7 as stated: a successful `startRecording` on a
session holding a transcript from a previous cycle leaves the transcript
in place instead of clearing it. -/
theorem startRecording_keeps_old_transcript :
    (startRecording envAllOk { initialState with transcription := "hello world" }).1.isRecording
        = true
    ∧ (startRecording envAllOk { initialState with transcription := "hello world" }).1.transcription
        = "hello world" := by
  exact ⟨rfl, rfl⟩

/-- Claim C7 as amended: `startRecording` never modifies the session
transcript, on any path; the transcript is never cleared by starting a
new cycle. -/
theorem startRecording_preserves_transcription :
    ∀ (env : StartEnv) (s : AppState),
      (startRecording env s).1.transcription = s.transcription := by
  intro env s
  unfold startRecording
  split
  · rfl
  · split
    · rfl
    · split
      · rfl
      · rfl

/-- Claim C8: stopping an active recording yields exactly one artifact: a
single blob tagged with the container MIME type `audio/webm` whose byte
length is the sum of the lengths of all chunks buffered before the stop. -/
theorem stopRecording_yields_single_concatenated_artifact :
    ∀ s : AppState, s.isRecording = true → s.mediaRecorderSet = true →
      (stopRecording s).audioBlob = some ⟨s.audioChunks.flatten, "audio/webm"⟩
      ∧ (Blob.mk s.audioChunks.flatten "audio/webm").size
          = (s.audioChunks.map List.length).sum
      ∧ (Blob.mk s.audioChunks.flatten "audio/webm").mime = "audio/webm" := by
  intro s h1 h2
  refine ⟨?_, ?_, rfl⟩
  · unfold stopRecording
    rw [if_pos (by simp [h1, h2])]
  · exact List.length_flatten _

/-- Witness for C8: stopping with buffered chunks `[1, 2]` and `[3]`
yields the single blob `[1, 2, 3]` of size `3 = 2 + 1`. -/
theorem stopRecording_yields_single_concatenated_artifact_witness :
    (stopRecording chunkState).audioBlob = some ⟨[1, 2, 3], "audio/webm"⟩
    ∧ (Blob.mk [1, 2, 3] "audio/webm").size = 3 := by
  have h := stopRecording_yields_single_concatenated_artifact chunkState rfl rfl
  exact ⟨h.1, h.2.1⟩

/-- Claim C9: calling `stopRecording` in any state where recording is not
active (including the initial state) is a no-op: the whole session state,
hence the recording flag, the artifact, the transcript and the status
message, is unchanged, and no artifact is produced. -/
theorem stopRecording_noop_when_not_recording :
    ∀ s : AppState, s.isRecording = false → stopRecording s = s := by
  intro s h
  unfold stopRecording
  rw [if_neg (by simp [h])]

/-- Witness for C9: stopping in the initial state changes nothing. -/
theorem stopRecording_noop_when_not_recording_witness :
    stopRecording initialState = initialState :=
  stopRecording_noop_when_not_recording initialState rfl

/-- Claim C10: the flag `hasAudio` is monotone.  It is false initially;
`startRecording` (alone or through a click), `processAudio` and the
chunk handler never change it; `stopRecording` preserves it once true
and is the only operation that sets it true, which it does exactly when
it stops an active recorder; and once it is true the start control is no
longer rendered, so no fresh recording cycle can be initiated through
the interface. -/
theorem hasAudio_monotone :
    initialState.hasAudio = false
    ∧ (∀ (env : StartEnv) (s : AppState), (startRecording env s).1.hasAudio = s.hasAudio)
    ∧ (∀ (env : StartEnv) (s : AppState), (clickStart env s).1.hasAudio = s.hasAudio)
    ∧ (∀ (env : ProcEnv) (s : AppState), (processAudio env s).1.hasAudio = s.hasAudio)
    ∧ (∀ (d : List Nat) (s : AppState), (dataAvailable d s).hasAudio = s.hasAudio)
    ∧ (∀ s : AppState, s.hasAudio = true → (stopRecording s).hasAudio = true)
    ∧ (∀ s : AppState, (stopRecording s).hasAudio = true →
        s.hasAudio = true ∨ (s.isRecording = true ∧ s.mediaRecorderSet = true))
    ∧ (∀ s : AppState, s.hasAudio = true → startButtonVisible s = false) := by
  refine ⟨rfl, startRecording_hasAudio, ?_, processAudio_hasAudio, ?_, ?_, ?_, ?_⟩
  · intro env s
    unfold clickStart
    split
    · exact startRecording_hasAudio env s
    · rfl
  · intro d s
    unfold dataAvailable
    split
    · rfl
    · rfl
  · intro s h
    unfold stopRecording
    split
    · rfl
    · exact h
  · intro s h
    unfold stopRecording at h
    by_cases hc : (s.mediaRecorderSet && s.isRecording) = true
    · rw [Bool.and_eq_true] at hc
      exact Or.inr ⟨hc.2, hc.1⟩
    · rw [if_neg hc] at h
      exact Or.inl h
  · intro s h
    unfold startButtonVisible
    simp [h]

/-- Witness for C10: in a state reached after a stopped capture the flag
stays true under a further stop and the start control is hidden. -/
theorem hasAudio_monotone_witness :
    (stopRecording stoppedState).hasAudio = true
    ∧ startButtonVisible stoppedState = false := by
  obtain ⟨-, -, -, -, -, h6, -, h8⟩ := hasAudio_monotone
  exact ⟨h6 stoppedState rfl, h8 stoppedState rfl⟩

end Summariser
